import Mathlib

/-!
Verification of `rust/kernel/error.rs`: the kernel error translation layer.

The development shallowly embeds the Rust module: machine integers are
modelled as `Int` with explicit two's-complement wrap functions for the
Rust `as i16` / `as i32` casts, the `Error` newtype over `c_int` becomes a
one-field structure over `Int`, `Result<T>` becomes `Except Error T`, and
the two host-owned foreign functions of `from_kernel_err_ptr` become
function parameters (they are external collaborators declared but not
defined in the module).
-/

namespace bindings

/-- Modelled from the spec: the host symbolic constant for operation not
permitted, taken from the kernel errno table (`EPERM`), which is generated
from C headers outside this module. -/
def EPERM : Nat := 1

/-- Modelled from the spec: the host symbolic constant for no such file or
directory (`ENOENT`), from the kernel errno table outside this module. -/
def ENOENT : Nat := 2

/-- Modelled from the spec: the host symbolic constant for no such process
(`ESRCH`), from the kernel errno table outside this module. -/
def ESRCH : Nat := 3

/-- Modelled from the spec: the host symbolic constant for interrupted
system call (`EINTR`), from the kernel errno table outside this module. -/
def EINTR : Nat := 4

/-- Modelled from the spec: the host symbolic constant for try again
(`EAGAIN`), from the kernel errno table outside this module. -/
def EAGAIN : Nat := 11

/-- Modelled from the spec: the host symbolic constant for out of memory
(`ENOMEM`), from the kernel errno table outside this module. -/
def ENOMEM : Nat := 12

/-- Modelled from the spec: the host symbolic constant for bad address
(`EFAULT`), from the kernel errno table outside this module. -/
def EFAULT : Nat := 14

/-- Modelled from the spec: the host symbolic constant for device or
resource busy (`EBUSY`), from the kernel errno table outside this module. -/
def EBUSY : Nat := 16

/-- Modelled from the spec: the host symbolic constant for invalid argument
(`EINVAL`), from the kernel errno table outside this module. -/
def EINVAL : Nat := 22

/-- Modelled from the spec: the host symbolic constant for illegal seek
(`ESPIPE`), from the kernel errno table outside this module. -/
def ESPIPE : Nat := 29

/-- Modelled from the spec: the host symbolic constant for restart the
system call (`ERESTARTSYS`), from the kernel errno table outside this
module. -/
def ERESTARTSYS : Nat := 512

/-- Modelled from the spec: the host platform's maximum declared error
magnitude (`MAX_ERRNO`), from the kernel headers outside this module. -/
def MAX_ERRNO : Nat := 4095

end bindings

/-- Rust `as i16` on an integer value: two's-complement wrap into the
signed 16-bit range. -/
def i16Cast (n : Int) : Int := (n + 2 ^ 15) % 2 ^ 16 - 2 ^ 15

/-- Rust `as i32` on an integer value: two's-complement wrap into the
signed 32-bit range. -/
def i32Cast (n : Int) : Int := (n + 2 ^ 31) % 2 ^ 32 - 2 ^ 31

/-- Embeds `pub struct Error(c_types::c_int)` : the generic integer kernel
error, a newtype over the C `int`. -/
structure Error where
  code : Int
deriving DecidableEq

namespace Error

/-- `Error::EINVAL = Error(-(bindings::EINVAL as i32))`. -/
def EINVAL : Error := ⟨-(i32Cast (Int.ofNat bindings.EINVAL))⟩

/-- `Error::ENOMEM = Error(-(bindings::ENOMEM as i32))`. -/
def ENOMEM : Error := ⟨-(i32Cast (Int.ofNat bindings.ENOMEM))⟩

/-- `Error::EFAULT = Error(-(bindings::EFAULT as i32))`. -/
def EFAULT : Error := ⟨-(i32Cast (Int.ofNat bindings.EFAULT))⟩

/-- `Error::ESPIPE = Error(-(bindings::ESPIPE as i32))`. -/
def ESPIPE : Error := ⟨-(i32Cast (Int.ofNat bindings.ESPIPE))⟩

/-- `Error::EAGAIN = Error(-(bindings::EAGAIN as i32))`. -/
def EAGAIN : Error := ⟨-(i32Cast (Int.ofNat bindings.EAGAIN))⟩

/-- `Error::EBUSY = Error(-(bindings::EBUSY as i32))`. -/
def EBUSY : Error := ⟨-(i32Cast (Int.ofNat bindings.EBUSY))⟩

/-- `Error::ERESTARTSYS = Error(-(bindings::ERESTARTSYS as i32))`. -/
def ERESTARTSYS : Error := ⟨-(i32Cast (Int.ofNat bindings.ERESTARTSYS))⟩

/-- `Error::EPERM = Error(-(bindings::EPERM as i32))`. -/
def EPERM : Error := ⟨-(i32Cast (Int.ofNat bindings.EPERM))⟩

/-- `Error::ESRCH = Error(-(bindings::ESRCH as i32))`. -/
def ESRCH : Error := ⟨-(i32Cast (Int.ofNat bindings.ESRCH))⟩

/-- `Error::ENOENT = Error(-(bindings::ENOENT as i32))`. -/
def ENOENT : Error := ⟨-(i32Cast (Int.ofNat bindings.ENOENT))⟩

/-- `Error::EINTR = Error(-(bindings::EINTR as i32))`. -/
def EINTR : Error := ⟨-(i32Cast (Int.ofNat bindings.EINTR))⟩

/-- `Error::from_kernel_errno`: creates an `Error` from a kernel error
code, with no validation (`Error(errno)`). -/
def from_kernel_errno (errno : Int) : Error := ⟨errno⟩

/-- `Error::to_kernel_errno`: returns the kernel error code (`self.0`). -/
def to_kernel_errno (e : Error) : Int := e.code

end Error

/-- Embeds `core::num::TryFromIntError`, the integer-narrowing failure
value; in Rust it is a unit-like struct. -/
structure TryFromIntError where
  unit : Unit
deriving DecidableEq

/-- Embeds `core::str::Utf8Error`, the text-decoding failure value, with
its valid-prefix length and optional error length. -/
structure Utf8Error where
  valid_up_to : Nat
  error_len : Option Nat
deriving DecidableEq

/-- Embeds `alloc::alloc::AllocError`, the single-allocation failure
value; in Rust it is a unit-like struct. -/
structure AllocError where
  unit : Unit
deriving DecidableEq

/-- Embeds `alloc::collections::TryReserveError`, the bulk-capacity
reservation failure: either a capacity overflow or an allocator failure
for a requested memory layout (size and alignment). -/
inductive TryReserveError where
  | capacityOverflow : TryReserveError
  | allocError (size align : Nat) : TryReserveError
deriving DecidableEq

/-- `impl From<TryFromIntError> for Error`: ignores the instance and
returns `Error::EINVAL`. -/
def Error.fromTryFromIntError (_ : TryFromIntError) : Error := Error.EINVAL

/-- `impl From<Utf8Error> for Error`: ignores the instance and returns
`Error::EINVAL`. -/
def Error.fromUtf8Error (_ : Utf8Error) : Error := Error.EINVAL

/-- `impl From<TryReserveError> for Error`: ignores the instance and
returns `Error::ENOMEM`. -/
def Error.fromTryReserveError (_ : TryReserveError) : Error := Error.ENOMEM

/-- `impl From<AllocError> for Error`: ignores the instance and returns
`Error::ENOMEM`. -/
def Error.fromAllocError (_ : AllocError) : Error := Error.ENOMEM

/-- `pub type Result<T> = core::result::Result<T, Error>`. -/
abbrev Result (T : Type) := Except Error T

/-- The build-time check `static_assert!(bindings::MAX_ERRNO <=
-(i16::MIN as i32) as u32)`; `-(i16::MIN as i32) as u32` evaluates to
`2 ^ 15`. -/
def MAX_ERRNO_static_assert : Prop := bindings.MAX_ERRNO ≤ 2 ^ 15

/-- `from_kernel_result_helper`: on `Ok(v)` returns `v`; on `Err(e)`
returns `T::from(e.to_kernel_errno() as i16)`. The `T : From<i16>` bound
is embedded as the function parameter `tFrom`. -/
def from_kernel_result_helper {T : Type} (tFrom : Int → T) : Result T → T
  | Except.ok v => v
  | Except.error e => tFrom (i16Cast e.to_kernel_errno)

/-- `from_kernel_err_ptr`: pointers are embedded by their bit pattern
(`Nat`); the host-owned foreign functions `rust_helper_is_err` and
`rust_helper_ptr_err` are parameters since the module only declares them.
If the predicate holds, returns `Err(Error::from_kernel_errno(err as
i32))` where `err` is the extractor's `c_long` result; otherwise returns
`Ok(ptr)` unchanged. -/
def from_kernel_err_ptr (is_err : Nat → Bool) ( ptr_err : Nat → Int)
    (ptr : Nat) : Result Nat :=
  if is_err ptr then
    Except.error (Error.from_kernel_errno (i32Cast ( ptr_err ptr)))
  else
    Except.ok ptr

lemma i16Cast_lb (n : Int) : -(2 ^ 15) ≤ i16Cast n := by
  unfold i16Cast; omega

lemma i16Cast_ub (n : Int) : i16Cast n < 2 ^ 15 := by
  unfold i16Cast; omega

lemma i16Cast_congr (n : Int) : (i16Cast n - n) % 2 ^ 16 = 0 := by
  unfold i16Cast; omega

lemma i16Cast_eq_self {n : Int} (h1 : -(2 ^ 15) ≤ n) (h2 : n < 2 ^ 15) :
    i16Cast n = n := by
  unfold i16Cast; omega

lemma i32Cast_lb (n : Int) : -(2 ^ 31) ≤ i32Cast n := by
  unfold i32Cast; omega

lemma i32Cast_ub (n : Int) : i32Cast n < 2 ^ 31 := by
  unfold i32Cast; omega

lemma i32Cast_congr (n : Int) : (i32Cast n - n) % 2 ^ 32 = 0 := by
  unfold i32Cast; omega

lemma i32Cast_eq_self {n : Int} (h1 : -(2 ^ 31) ≤ n) (h2 : n < 2 ^ 31) :
    i32Cast n = n := by
  unfold i32Cast; omega

/-- Claim C5: every instance of each of the four internal failure kinds
converts to exactly one fixed catalogue constant: `TryFromIntError` and
`Utf8Error` to `Error::EINVAL`, `AllocError` and `TryReserveError` to
`Error::ENOMEM`, and those two targets are distinct constants. -/
theorem conversion_totality :
    (∀ t : TryFromIntError, Error.fromTryFromIntError t = Error.EINVAL) ∧
    (∀ u : Utf8Error, Error.fromUtf8Error u = Error.EINVAL) ∧
    (∀ a : AllocError, Error.fromAllocError a = Error.ENOMEM) ∧
    (∀ r : TryReserveError, Error.fromTryReserveError r = Error.ENOMEM) ∧
    Error.EINVAL ≠ Error.ENOMEM :=
  ⟨fun _ => rfl, fun _ => rfl, fun _ => rfl, fun _ => rfl, by decide⟩

/-- Claim C6: for each of the eleven named catalogue constants,
constructing an `Error` via `from_kernel_errno` from the constant's raw
kernel integer and extracting via `to_kernel_errno` yields exactly the
original raw integer. -/
theorem catalogue_round_trip :
    Error.to_kernel_errno (Error.from_kernel_errno
      (Error.to_kernel_errno Error.EINVAL)) =
      Error.to_kernel_errno Error.EINVAL ∧
    Error.to_kernel_errno (Error.from_kernel_errno
      (Error.to_kernel_errno Error.ENOMEM)) =
      Error.to_kernel_errno Error.ENOMEM ∧
    Error.to_kernel_errno (Error.from_kernel_errno
      (Error.to_kernel_errno Error.EFAULT)) =
      Error.to_kernel_errno Error.EFAULT ∧
    Error.to_kernel_errno (Error.from_kernel_errno
      (Error.to_kernel_errno Error.ESPIPE)) =
      Error.to_kernel_errno Error.ESPIPE ∧
    Error.to_kernel_errno (Error.from_kernel_errno
      (Error.to_kernel_errno Error.EAGAIN)) =
      Error.to_kernel_errno Error.EAGAIN ∧
    Error.to_kernel_errno (Error.from_kernel_errno
      (Error.to_kernel_errno Error.EBUSY)) =
      Error.to_kernel_errno Error.EBUSY ∧
    Error.to_kernel_errno (Error.from_kernel_errno
      (Error.to_kernel_errno Error.ERESTARTSYS)) =
      Error.to_kernel_errno Error.ERESTARTSYS ∧
    Error.to_kernel_errno (Error.from_kernel_errno
      (Error.to_kernel_errno Error.EPERM)) =
      Error.to_kernel_errno Error.EPERM ∧
    Error.to_kernel_errno (Error.from_kernel_errno
      (Error.to_kernel_errno Error.ESRCH)) =
      Error.to_kernel_errno Error.ESRCH ∧
    Error.to_kernel_errno (Error.from_kernel_errno
      (Error.to_kernel_errno Error.ENOENT)) =
      Error.to_kernel_errno Error.ENOENT ∧
    Error.to_kernel_errno (Error.from_kernel_errno
      (Error.to_kernel_errno Error.EINTR)) =
      Error.to_kernel_errno Error.EINTR := by
  decide

/-- Claim C7: each of the eleven named catalogue constants has raw
integer value equal to the negation of the corresponding host symbolic
constant. -/
theorem catalogue_negation :
    Error.to_kernel_errno Error.EINVAL = -(Int.ofNat bindings.EINVAL) ∧
    Error.to_kernel_errno Error.ENOMEM = -(Int.ofNat bindings.ENOMEM) ∧
    Error.to_kernel_errno Error.EFAULT = -(Int.ofNat bindings.EFAULT) ∧
    Error.to_kernel_errno Error.ESPIPE = -(Int.ofNat bindings.ESPIPE) ∧
    Error.to_kernel_errno Error.EAGAIN = -(Int.ofNat bindings.EAGAIN) ∧
    Error.to_kernel_errno Error.EBUSY = -(Int.ofNat bindings.EBUSY) ∧
    Error.to_kernel_errno Error.ERESTARTSYS =
      -(Int.ofNat bindings.ERESTARTSYS) ∧
    Error.to_kernel_errno Error.EPERM = -(Int.ofNat bindings.EPERM) ∧
    Error.to_kernel_errno Error.ESRCH = -(Int.ofNat bindings.ESRCH) ∧
    Error.to_kernel_errno Error.ENOENT = -(Int.ofNat bindings.ENOENT) ∧
    Error.to_kernel_errno Error.EINTR = -(Int.ofNat bindings.EINTR) := by
  decide

/-- Claim C8: construction performs no range validation: for every
integer `e`, including non-negative and out-of-range values,
`from_kernel_errno e` is defined and `to_kernel_errno (from_kernel_errno
e) = e`; extraction is a total function. -/
theorem from_kernel_errno_no_validation (e : Int) :
    Error.to_kernel_errno (Error.from_kernel_errno e) = e :=
  rfl

/-- Claim C1, counterexample: the claim asserts the narrowed 16-bit value
is always strictly negative for every `Err(e)`, but `from_kernel_errno`
performs no validation, so `Err(Error::from_kernel_errno(0))` narrows to
`0`, which is not strictly negative. -/
theorem adapter_narrowed_not_always_neg :
    from_kernel_result_helper (fun n => n)
      (Except.error (Error.from_kernel_errno 0)) =
      i16Cast (Error.to_kernel_errno (Error.from_kernel_errno 0)) ∧
    ¬ i16Cast (Error.to_kernel_errno (Error.from_kernel_errno 0)) < 0 :=
  ⟨rfl, by decide⟩

/-- Claim C1, amended: `from_kernel_result_helper` passes `Ok(v)` through
unchanged and maps `Err(e)` to `T::from` of the raw code narrowed to a
signed 16-bit integer; when the raw code obeys the kernel ABI convention
(a negative value of magnitude at most `MAX_ERRNO`), the narrowed value
equals the raw code and is strictly negative. -/
theorem adapter_equivalence (T : Type) (tFrom : Int → T) (v : T)
    (raw : Int)
    (h : -(Int.ofNat bindings.MAX_ERRNO) ≤ raw ∧ raw ≤ -1) :
    from_kernel_result_helper tFrom (Except.ok v) = v ∧
    from_kernel_result_helper tFrom
      (Except.error (Error.from_kernel_errno raw)) =
      tFrom (i16Cast (Error.to_kernel_errno (Error.from_kernel_errno raw))) ∧
    i16Cast (Error.to_kernel_errno (Error.from_kernel_errno raw)) = raw ∧
    i16Cast (Error.to_kernel_errno (Error.from_kernel_errno raw)) < 0 := by
  have hM : Int.ofNat bindings.MAX_ERRNO = 4095 := rfl
  rw [hM] at h
  have hraw : Error.to_kernel_errno (Error.from_kernel_errno raw) = raw := rfl
  have h16 : i16Cast raw = raw := i16Cast_eq_self (by omega) (by omega)
  refine ⟨rfl, rfl, by rw [hraw, h16], by rw [hraw, h16]; omega⟩

/-- Claim C1, witness at `Ok(7)` and `Err(Error::from_kernel_errno(-22))`. -/
theorem adapter_equivalence_witness :
    from_kernel_result_helper (fun n => n) (Except.ok (7 : Int)) = 7 ∧
    from_kernel_result_helper (fun n => n)
      (Except.error (Error.from_kernel_errno (-22))) =
      i16Cast (Error.to_kernel_errno (Error.from_kernel_errno (-22))) ∧
    i16Cast (Error.to_kernel_errno (Error.from_kernel_errno (-22))) =
      -22 ∧
    i16Cast (Error.to_kernel_errno (Error.from_kernel_errno (-22))) < 0 :=
  adapter_equivalence Int (fun n => n) 7 (-22) ⟨by decide, by decide⟩

/-- Claim C2: for every magnitude `m` with `0 ≤ m ≤ MAX_ERRNO`, the
negation `-m` is representable in a signed 16-bit integer (so the `as
i16` cast is the identity on it), and the build-time assertion
`MAX_ERRNO <= -(i16::MIN as i32) as u32` holds. -/
theorem narrowing_safety (m : Int)
    (h : 0 ≤ m ∧ m ≤ Int.ofNat bindings.MAX_ERRNO) :
    (-(2 ^ 15) ≤ -m ∧ -m < 2 ^ 15) ∧ i16Cast (-m) = -m ∧
    MAX_ERRNO_static_assert := by
  have hM : Int.ofNat bindings.MAX_ERRNO = 4095 := rfl
  rw [hM] at h
  refine ⟨⟨by omega, by omega⟩, i16Cast_eq_self (by omega) (by omega), ?_⟩
  unfold MAX_ERRNO_static_assert
  decide

/-- Claim C2, witness at the boundary magnitude `m = MAX_ERRNO = 4095`. -/
theorem narrowing_safety_witness :
    (-(2 ^ 15) ≤ -(4095 : Int) ∧ -(4095 : Int) < 2 ^ 15) ∧
    i16Cast (-(4095 : Int)) = -(4095 : Int) ∧ MAX_ERRNO_static_assert :=
  narrowing_safety 4095 ⟨by decide, by decide⟩

/-- Claim C3: when the host predicate reports an error pointer,
`from_kernel_err_ptr` returns failure with raw code `i32Cast` of the host
extractor's value; under the kernel ABI guarantee on the extractor (a
negative value of magnitude at most `MAX_ERRNO`), this coincides with the
16-bit narrowing used by the adapter and widens losslessly into the
`Error`'s 32-bit representation. -/
theorem err_ptr_extraction (is_err : Nat → Bool) ( ptr_err : Nat → Int)
    (p : Nat) (hp : is_err p = true)
    (hr : -(Int.ofNat bindings.MAX_ERRNO) ≤ ptr_err p ∧ ptr_err p ≤ -1) :
    from_kernel_err_ptr is_err ptr_err p =
      Except.error (Error.from_kernel_errno (i32Cast ( ptr_err p))) ∧
    i32Cast ( ptr_err p) = i16Cast ( ptr_err p) ∧
    Error.to_kernel_errno (Error.from_kernel_errno (i32Cast ( ptr_err p))) =
      ptr_err p := by
  have hM : Int.ofNat bindings.MAX_ERRNO = 4095 := rfl
  rw [hM] at hr
  have h32 : i32Cast ( ptr_err p) = ptr_err p :=
    i32Cast_eq_self (by omega) (by omega)
  have h16 : i16Cast ( ptr_err p) = ptr_err p :=
    i16Cast_eq_self (by omega) (by omega)
  exact ⟨by simp [from_kernel_err_ptr, hp], by rw [h32, h16],
    by rw [h32]; rfl⟩

/-- Claim C3, witness: a predicate reporting true at pointer `1` with
extractor value `-22`. -/
theorem err_ptr_extraction_witness :
    from_kernel_err_ptr (fun _ => true) (fun _ => (-22 : Int)) 1 =
      Except.error (Error.from_kernel_errno (i32Cast (-22))) ∧
    i32Cast (-22 : Int) = i16Cast (-22 : Int) ∧
    Error.to_kernel_errno (Error.from_kernel_errno (i32Cast (-22))) =
      -22 :=
  err_ptr_extraction (fun _ => true) (fun _ => (-22 : Int)) 1 rfl
    ⟨by decide, by decide⟩

/-- Claim C4: when the host predicate reports the pointer is not an
error, `from_kernel_err_ptr` returns success carrying the input pointer
bit-identically. -/
theorem err_ptr_passthrough (is_err : Nat → Bool) ( ptr_err : Nat → Int)
    (p : Nat) (hp : is_err p = false) :
    from_kernel_err_ptr is_err ptr_err p = Except.ok p := by
  simp [from_kernel_err_ptr, hp]

/-- Claim C4, witness: a predicate reporting false at pointer `5`. -/
theorem err_ptr_passthrough_witness :
    from_kernel_err_ptr (fun _ => false) (fun _ => (0 : Int)) 5 =
      Except.ok 5 :=
  err_ptr_passthrough (fun _ => false) (fun _ => (0 : Int)) 5 rfl

/-- Claim C9: `from_kernel_result_helper` is total for every error value:
the `as i16` narrowing wraps two's-complement modulo `2 ^ 16` into the
signed 16-bit range rather than trapping, and `from_kernel_err_ptr`'s `as
i32` cast of the extractor's `c_long` result likewise wraps modulo
`2 ^ 32` into the signed 32-bit range. -/
theorem adapter_total_wrapping (T : Type) (tFrom : Int → T) (raw : Int)
    (is_err : Nat → Bool) ( ptr_err : Nat → Int) (p : Nat)
    (hp : is_err p = true) :
    from_kernel_result_helper tFrom
      (Except.error (Error.from_kernel_errno raw)) = tFrom (i16Cast raw) ∧
    (-(2 ^ 15) ≤ i16Cast raw ∧ i16Cast raw < 2 ^ 15 ∧
      (i16Cast raw - raw) % 2 ^ 16 = 0) ∧
    from_kernel_err_ptr is_err ptr_err p =
      Except.error (Error.from_kernel_errno (i32Cast ( ptr_err p))) ∧
    (-(2 ^ 31) ≤ i32Cast ( ptr_err p) ∧ i32Cast ( ptr_err p) < 2 ^ 31 ∧
      (i32Cast ( ptr_err p) - ptr_err p) % 2 ^ 32 = 0) :=
  ⟨rfl, ⟨i16Cast_lb raw, i16Cast_ub raw, i16Cast_congr raw⟩,
    by simp [from_kernel_err_ptr, hp],
    ⟨i32Cast_lb _, i32Cast_ub _, i32Cast_congr _⟩⟩

/-- Claim C9, witness at the out-of-range raw code `40000` (outside the
signed 16-bit range) and an extractor returning `2 ^ 32 + 5` (outside the
signed 32-bit range). -/
theorem adapter_total_wrapping_witness :
    from_kernel_result_helper (fun n => n)
      (Except.error (Error.from_kernel_errno 40000)) =
      i16Cast 40000 ∧
    (-(2 ^ 15) ≤ i16Cast 40000 ∧ i16Cast 40000 < 2 ^ 15 ∧
      (i16Cast 40000 - 40000) % 2 ^ 16 = 0) ∧
    from_kernel_err_ptr (fun _ => true) (fun _ => (2 ^ 32 + 5 : Int)) 0 =
      Except.error (Error.from_kernel_errno (i32Cast (2 ^ 32 + 5))) ∧
    (-(2 ^ 31) ≤ i32Cast (2 ^ 32 + 5 : Int) ∧
      i32Cast (2 ^ 32 + 5 : Int) < 2 ^ 31 ∧
      (i32Cast (2 ^ 32 + 5 : Int) - (2 ^ 32 + 5)) % 2 ^ 32 = 0) :=
  adapter_total_wrapping Int (fun n => n) 40000 (fun _ => true)
    (fun _ => (2 ^ 32 + 5 : Int)) 0 rfl

/-- Claim C10: every operation of the layer is deterministic: two
invocations of `from_kernel_errno`, `to_kernel_errno`, any of the four
`From` conversions, or `from_kernel_result_helper` on equal inputs yield
equal outputs (the embedding is purely functional, mirroring that the
Rust code touches no shared state). -/
theorem operations_deterministic (e1 e2 : Int) (x1 x2 : Error)
    (r1 r2 : Result Int) (tF : Int → Int)
    (t1 t2 : TryFromIntError) (u1 u2 : Utf8Error)
    (a1 a2 : AllocError) (v1 v2 : TryReserveError)
    (he : e1 = e2) (hx : x1 = x2) (hr : r1 = r2) (ht : t1 = t2)
    (hu : u1 = u2) (ha : a1 = a2) (hv : v1 = v2) :
    Error.from_kernel_errno e1 = Error.from_kernel_errno e2 ∧
    Error.to_kernel_errno x1 = Error.to_kernel_errno x2 ∧
    Error.fromTryFromIntError t1 = Error.fromTryFromIntError t2 ∧
    Error.fromUtf8Error u1 = Error.fromUtf8Error u2 ∧
    Error.fromAllocError a1 = Error.fromAllocError a2 ∧
    Error.fromTryReserveError v1 = Error.fromTryReserveError v2 ∧
    from_kernel_result_helper tF r1 = from_kernel_result_helper tF r2 := by
  subst he hx hr ht hu ha hv
  exact ⟨rfl, rfl, rfl, rfl, rfl, rfl, rfl⟩

/-- Claim C10, witness: two invocations of each operation at one concrete
input. -/
theorem operations_deterministic_witness :
    Error.from_kernel_errno (-22) = Error.from_kernel_errno (-22) ∧
    Error.to_kernel_errno Error.EINVAL =
      Error.to_kernel_errno Error.EINVAL ∧
    Error.fromTryFromIntError ⟨()⟩ = Error.fromTryFromIntError ⟨()⟩ ∧
    Error.fromUtf8Error ⟨0, none⟩ = Error.fromUtf8Error ⟨0, none⟩ ∧
    Error.fromAllocError ⟨()⟩ = Error.fromAllocError ⟨()⟩ ∧
    Error.fromTryReserveError TryReserveError.capacityOverflow =
      Error.fromTryReserveError TryReserveError.capacityOverflow ∧
    from_kernel_result_helper (fun n => n) (Except.ok (3 : Int)) =
      from_kernel_result_helper (fun n => n) (Except.ok (3 : Int)) :=
  operations_deterministic (-22) (-22) Error.EINVAL Error.EINVAL
    (Except.ok 3) (Except.ok 3) (fun n => n)
    ⟨()⟩ ⟨()⟩ ⟨0, none⟩ ⟨0, none⟩ ⟨()⟩ ⟨()⟩
    TryReserveError.capacityOverflow TryReserveError.capacityOverflow
    rfl rfl rfl rfl rfl rfl rfl
